import Mathlib

/-!
A shallow embedding of `data_collector.py`: an options-market data pipeline
that fetches per-ticker option chains from a quote source, derives numeric
model features, filters illiquid and incomplete rows, and appends the result
to a CSV file.

Modelling conventions:
* a DataFrame is a `List` of rows; a numeric cell is `Option ℚ` with `none`
  standing for a missing value (NaN), which pandas propagates through
  arithmetic and treats as false in `> 0` comparisons and as droppable in
  `dropna`;
* the one division that can meet a zero divisor (moneyness) lands in
  `FloatVal`, which also carries the signed infinities that float division
  produces on a zero divisor (pandas does not raise there; `0/0` is NaN);
* dates and timestamps are rationals counting days, a parsed date string
  being the value at midnight, and the `.dt.days` of a timedelta is the
  floor of the difference;
* `process_and_clean_data` assigns new columns to the frame it receives,
  mutating the caller's object in place, so its embedding returns the
  post-call state of that frame alongside the returned result;
* the CSV file is `none` while it does not exist, otherwise the list of its
  lines; `datetime.now()` is a clock parameter `now`.
-/

namespace DataCollector

/-- Result of a float division as pandas computes it: a finite value, or a
signed infinity when the divisor is zero and the dividend is not. -/
inductive FloatVal where
  | fin (q : ℚ)
  | pinf
  | ninf
deriving DecidableEq

/-- `u / k` in float arithmetic: a signed infinity on a zero divisor with a
nonzero dividend, NaN (`none`) for `0 / 0`, the exact quotient otherwise. -/
def fdivVal (u k : ℚ) : Option FloatVal :=
  if k = 0 then
    if u = 0 then none
    else if 0 < u then some FloatVal.pinf
    else some FloatVal.ninf
  else some (FloatVal.fin (u / k))

/-- `TICKERS` (line 8): the configured ticker list. -/
def TICKERS : List String := ["AAPL", "MSFT", "NVDA", "TSLA", "GOOGL", "AMZN"]

/-- `RISK_FREE_RATE = 0.05` (line 13). -/
def RISK_FREE_RATE : ℚ := 0.05

/-- `OUTPUT_CSV` (line 16): the output file path. -/
def OUTPUT_CSV : String := "options_dataset.csv"

/-- One row of the options DataFrame.  The first nine columns come from the
quote source and the Fetcher's stamping; the derived columns are absent
(`none`) until `process_and_clean_data` assigns them. -/
structure Row where
  strike : Option ℚ
  bid : Option ℚ
  ask : Option ℚ
  impliedVolatility : Option ℚ
  optionType : Option String
  expirationDate : Option ℚ
  ticker : Option String
  timestamp : Option ℚ
  underlyingPrice : Option ℚ
  marketPrice : Option ℚ := none
  daysToExpiration : Option ℤ := none
  timeToExpiration : Option ℚ := none
  moneyness : Option FloatVal := none
  riskFreeRate : Option ℚ := none
deriving DecidableEq

/-- A row of `processed_df`: the projection to `final_cols` (lines 84-95). -/
structure OutRow where
  underlyingPrice : Option ℚ
  strike : Option ℚ
  optionType : Option String
  moneyness : Option FloatVal
  timeToExpiration : Option ℚ
  impliedVolatility : Option ℚ
  riskFreeRate : Option ℚ
  marketPrice : Option ℚ
deriving DecidableEq

/-- NaN-propagating binary arithmetic on cells, as pandas column arithmetic
behaves rowwise. -/
def cellMap2 (f : ℚ → ℚ → ℚ) : Option ℚ → Option ℚ → Option ℚ
  | some x, some y => some (f x y)
  | _, _ => none

/-- Lines 66-77 of `process_and_clean_data`, rowwise: the column
assignments that add `marketPrice`, `daysToExpiration`, `timeToExpiration`,
`moneyness` and `riskFreeRate` to the frame. -/
def augmentRow (r : Row) : Row :=
  let mp := cellMap2 (fun b a => (b + a) / 2) r.bid r.ask
  let d : Option ℤ :=
    match r.expirationDate, r.timestamp with
    | some e, some t => some ⌊e - t⌋
    | _, _ => none
  let tte := d.map (fun n => (n : ℚ) / 365)
  let m : Option FloatVal :=
    match r.underlyingPrice, r.strike with
    | some u, some k => fdivVal u k
    | _, _ => none
  { r with marketPrice := mp, daysToExpiration := d, timeToExpiration := tte,
           moneyness := m, riskFreeRate := some RISK_FREE_RATE }

/-- A cell compared `> 0` the way pandas compares: a missing value is not
greater than zero. -/
def cellPos : Option ℚ → Bool
  | some x => decide (0 < x)
  | none => false

/-- Line 80: the liquidity filter `(df['bid'] > 0) & (df['ask'] > 0)`. -/
def liquid (r : Row) : Bool := cellPos r.bid && cellPos r.ask

/-- Line 95: the projection `df[final_cols]` to the eight output columns. -/
def projectRow (r : Row) : OutRow :=
  { underlyingPrice := r.underlyingPrice
    strike := r.strike
    optionType := r.optionType
    moneyness := r.moneyness
    timeToExpiration := r.timeToExpiration
    impliedVolatility := r.impliedVolatility
    riskFreeRate := r.riskFreeRate
    marketPrice := r.marketPrice }

/-- Line 98 `dropna`: keep a row iff none of its eight cells is missing. -/
def noneMissing (r : OutRow) : Bool :=
  r.underlyingPrice.isSome && r.strike.isSome && r.optionType.isSome &&
  r.moneyness.isSome && r.timeToExpiration.isSome &&
  r.impliedVolatility.isSome && r.riskFreeRate.isSome && r.marketPrice.isSome

/-- `process_and_clean_data` (lines 61-100).  The first component is the
state of the caller's DataFrame after the call: the column assignments of
lines 66-77 act on the argument in place, while the rebinding at line 80
makes the filter, the projection and the `dropna` act on fresh frames.  The
second component is the returned `processed_df`. -/
def process_and_clean_data (df : List Row) : List Row × List OutRow :=
  let augmented := df.map augmentRow
  let filtered := augmented.filter liquid
  let projected := filtered.map projectRow
  (augmented, projected.filter noneMissing)

/-- One row of a `calls` or `puts` frame supplied by the quote source,
restricted to the columns the pipeline reads. -/
structure RawQuote where
  strike : Option ℚ
  bid : Option ℚ
  ask : Option ℚ
  impliedVolatility : Option ℚ
deriving DecidableEq

/-- The chain the quote source offers for one expiration date. -/
structure ExpChain where
  expDate : ℚ
  calls : List RawQuote
  puts : List RawQuote
deriving DecidableEq

/-- What the quote source supplies for one ticker.  `price` is `none` when
`stock.history(period='1d')` has no rows, which is the `IndexError` branch
of lines 27-31. -/
structure TickerData where
  price : Option ℚ
  options : List ExpChain
deriving DecidableEq

/-- Lines 40-51: label a raw quote with its option type and stamp the
expiration date, ticker, fetch timestamp and underlying price onto it. -/
def stampRow (otype : String) (expDate : ℚ) (tk : String) (now : ℚ)
    (p : ℚ) (q : RawQuote) : Row :=
  { strike := q.strike
    bid := q.bid
    ask := q.ask
    impliedVolatility := q.impliedVolatility
    optionType := some otype
    expirationDate := some expDate
    ticker := some tk
    timestamp := some now
    underlyingPrice := some p }

/-- `fetch_options_data` (lines 20-58): rows for every contract of every
offered expiration, calls before puts within an expiration, paired with the
console output (the missing-price message when the price is unavailable). -/
def fetch_options_data (now : ℚ) (tk : String) (td : TickerData) :
    List Row × List String :=
  match td.price with
  | none =>
      ([], ["Could not fetch current price for " ++ tk ++ ". Skipping."])
  | some p =>
      ((td.options.map (fun ch =>
          ch.calls.map (stampRow "call" ch.expDate tk now p) ++
          ch.puts.map (stampRow "put" ch.expDate tk now p))).flatten, [])

/-- One line of the output CSV: the header or one data row. -/
inductive CsvLine where
  | header
  | data (r : OutRow)
deriving DecidableEq

/-- Lines 107-112: the per-ticker fetch results that are non-empty, in
configured ticker order (`all_ticker_data`). -/
def collectedRows (env : String → TickerData) (now : ℚ) : List (List Row) :=
  (TICKERS.map (fun t => (fetch_options_data now t (env t)).1)).filter
    (fun d => !d.isEmpty)

/-- The data lines one run would persist: the processed rows of the
concatenated per-ticker data. -/
def dataLines (env : String → TickerData) (now : ℚ) : List CsvLine :=
  ((process_and_clean_data (collectedRows env now).flatten).2).map CsvLine.data

/-- The `__main__` block (lines 104-129) as a function of the quote source
`env`, the clock `now` and the prior file state; returns the new file state
and the console output.  A missing file is created with the header line;
an existing file is appended to without a header; when no ticker produced
data the file is left untouched. -/
def mainRun (env : String → TickerData) (now : ℚ)
    (file : Option (List CsvLine)) : Option (List CsvLine) × List String :=
  let fetchLog :=
    (TICKERS.map (fun t =>
      ("Fetching data for " ++ t ++ "...") ::
        (fetch_options_data now t (env t)).2)).flatten
  let intro := "Starting options data collection..."
  if (collectedRows env now).isEmpty then
    (file, intro :: fetchLog ++ ["No data collected. Exiting."])
  else
    let model_ready_df := (process_and_clean_data (collectedRows env now).flatten).2
    match file with
    | some content =>
        (some (content ++ model_ready_df.map CsvLine.data),
         intro :: fetchLog ++
           ["Appended " ++ toString model_ready_df.length ++
             " new records to " ++ OUTPUT_CSV])
    | none =>
        (some (CsvLine.header :: model_ready_df.map CsvLine.data),
         intro :: fetchLog ++
           ["Created " ++ OUTPUT_CSV ++ " and saved " ++
             toString model_ready_df.length ++ " records."])

/-- A liquid call row in the style of Scenario C of the spec: bid 1, ask 2,
strike 100, underlying 105, implied volatility 3, expiring 30 days after
the fetch timestamp. -/
def sampleRow : Row :=
  { strike := some 100
    bid := some 1
    ask := some 2
    impliedVolatility := some 3
    optionType := some "call"
    expirationDate := some 30
    ticker := some "AAPL"
    timestamp := some 0
    underlyingPrice := some 105 }

/-- `augmentRow` leaves the raw columns unchanged. -/
lemma augmentRow_bid (r : Row) : (augmentRow r).bid = r.bid := rfl

lemma augmentRow_ask (r : Row) : (augmentRow r).ask = r.ask := rfl

lemma cellPos_iff (c : Option ℚ) : cellPos c = true ↔ ∃ x, c = some x ∧ 0 < x := by
  cases c <;> simp [cellPos]

lemma mem_processed_iff (df : List Row) (fr : OutRow) :
    fr ∈ (process_and_clean_data df).2 ↔
      ∃ r ∈ df, liquid (augmentRow r) = true ∧
        noneMissing (projectRow (augmentRow r)) = true ∧
        fr = projectRow (augmentRow r) := by
  simp only [process_and_clean_data, List.mem_filter, List.mem_map]
  constructor
  · rintro ⟨⟨s, ⟨⟨r, hr, rfl⟩, hliq⟩, rfl⟩, hmiss⟩
    exact ⟨r, hr, hliq, hmiss, rfl⟩
  · rintro ⟨r, hr, hliq, hmiss, rfl⟩
    exact ⟨⟨augmentRow r, ⟨⟨r, hr, rfl⟩, hliq⟩, rfl⟩, hmiss⟩

/-- C1: every row of the frame the Feature Processor has processed carries
`marketPrice = (bid + ask) / 2` of its own bid and ask cells whenever both
are present. -/
theorem C1_marketPrice_is_midpoint (df : List Row) (r : Row)
    (hr : r ∈ (process_and_clean_data df).1) (b a : ℚ)
    (hb : r.bid = some b) (ha : r.ask = some a) :
    r.marketPrice = some ((b + a) / 2) := by
  rcases List.mem_map.mp hr with ⟨s, _, rfl⟩
  have hb' : s.bid = some b := hb
  have ha' : s.ask = some a := ha
  simp [augmentRow, cellMap2, hb', ha']

/-- C1 witness: on the Scenario C row the midpoint is (1 + 1.2) / 2. -/
theorem C1_witness :
    (augmentRow sampleRow).marketPrice = some ((1 + 2) / 2) :=
  C1_marketPrice_is_midpoint [sampleRow] (augmentRow sampleRow)
    (by simp [process_and_clean_data]) 1 2 rfl rfl

/-- C2: every row the Feature Processor returns is the image of an input
row whose bid and ask were both present and strictly positive. -/
theorem C2_survivors_have_positive_bid_ask (df : List Row) (fr : OutRow)
    (h : fr ∈ (process_and_clean_data df).2) :
    ∃ r ∈ df, (∃ b, r.bid = some b ∧ 0 < b) ∧ (∃ a, r.ask = some a ∧ 0 < a) ∧
      fr = projectRow (augmentRow r) := by
  rcases (mem_processed_iff df fr).mp h with ⟨r, hr, hliq, _, rfl⟩
  have : cellPos r.bid = true ∧ cellPos r.ask = true := by
    have hb := augmentRow_bid r
    have ha := augmentRow_ask r
    simpa [liquid, hb, ha, Bool.and_eq_true] using hliq
  exact ⟨r, hr, (cellPos_iff r.bid).mp this.1, (cellPos_iff r.ask).mp this.2, rfl⟩

/-- C2 witness: the Scenario C row survives and indeed has positive bid and
ask. -/
theorem C2_witness :
    ∃ r ∈ [sampleRow],
      (∃ b, r.bid = some b ∧ 0 < b) ∧ (∃ a, r.ask = some a ∧ 0 < a) ∧
        projectRow (augmentRow sampleRow) = projectRow (augmentRow r) :=
  C2_survivors_have_positive_bid_ask [sampleRow]
    (projectRow (augmentRow sampleRow))
    ((mem_processed_iff [sampleRow] _).mpr
      ⟨sampleRow, List.mem_singleton.mpr rfl, by decide, by decide, rfl⟩)

/-- `sampleRow` with the expiration 30 days before the fetch timestamp. -/
def expiredRow : Row :=
  { sampleRow with expirationDate := some 0, timestamp := some 30 }

/-- `sampleRow` with a zero strike. -/
def zeroStrikeRow : Row := { sampleRow with strike := some 0 }

lemma expiredRow_mem_processed :
    projectRow (augmentRow expiredRow) ∈ (process_and_clean_data [expiredRow]).2 :=
  (mem_processed_iff [expiredRow] _).mpr
    ⟨expiredRow, List.mem_singleton.mpr rfl, by decide, by decide, rfl⟩

lemma zeroStrikeRow_mem_processed :
    projectRow (augmentRow zeroStrikeRow) ∈
      (process_and_clean_data [zeroStrikeRow]).2 :=
  (mem_processed_iff [zeroStrikeRow] _).mpr
    ⟨zeroStrikeRow, List.mem_singleton.mpr rfl, by decide, by decide, rfl⟩

/-- C3: on the processed frame, `daysToExpiration` is the floor of the day
difference between expiration date and fetch timestamp — an integer that
may be negative — and `timeToExpiration` is that integer divided by 365;
moreover a row whose expiration lies before the fetch timestamp keeps its
negative value and still reaches the returned frame, unfiltered. -/
theorem C3_timeToExpiration_days_over_365 :
    (∀ df : List Row, ∀ r ∈ (process_and_clean_data df).1, ∀ e t : ℚ,
        r.expirationDate = some e → r.timestamp = some t →
        r.daysToExpiration = some ⌊e - t⌋ ∧
        r.timeToExpiration = some ((⌊e - t⌋ : ℚ) / 365)) ∧
    (∃ fr ∈ (process_and_clean_data [expiredRow]).2, ∃ n : ℤ, n < 0 ∧
        fr.timeToExpiration = some ((n : ℚ) / 365)) := by
  constructor
  · intro df r hr e t he ht
    rcases List.mem_map.mp hr with ⟨s, _, rfl⟩
    have he' : s.expirationDate = some e := he
    have ht' : s.timestamp = some t := ht
    constructor <;> simp [augmentRow, he', ht']
  · refine ⟨projectRow (augmentRow expiredRow), expiredRow_mem_processed,
      ⌊(0 : ℚ) - 30⌋, ?_, rfl⟩
    have h30 : ((0 : ℚ) - 30) = ((-30 : ℤ) : ℚ) := by norm_num
    rw [h30, Int.floor_intCast]
    decide

/-- C3 witness: the universal part applied to the expired row, whose
day difference is the (negative) floor of 0 - 30. -/
theorem C3_witness :
    (augmentRow expiredRow).daysToExpiration = some ⌊(0 : ℚ) - 30⌋ ∧
    (augmentRow expiredRow).timeToExpiration =
      some ((⌊(0 : ℚ) - 30⌋ : ℚ) / 365) :=
  C3_timeToExpiration_days_over_365.1 [expiredRow] (augmentRow expiredRow)
    (by simp [process_and_clean_data]) 0 30 rfl rfl

/-- C4: on the processed frame, whenever the strike is present and nonzero,
`moneyness` is underlying price over strike; and the division is not
guarded, so a zero-strike row is still processed — it even survives to the
returned frame, carrying the infinite quotient of the zero division. -/
theorem C4_moneyness_unguarded_division :
    (∀ df : List Row, ∀ r ∈ (process_and_clean_data df).1, ∀ u k : ℚ,
        r.underlyingPrice = some u → r.strike = some k → k ≠ 0 →
        r.moneyness = some (FloatVal.fin (u / k))) ∧
    (∃ fr ∈ (process_and_clean_data [zeroStrikeRow]).2,
        fr.strike = some 0 ∧ fr.moneyness = some FloatVal.pinf) := by
  constructor
  · intro df r hr u k hu hk hk0
    rcases List.mem_map.mp hr with ⟨s, _, rfl⟩
    have hu' : s.underlyingPrice = some u := hu
    have hk' : s.strike = some k := hk
    simp [augmentRow, fdivVal, hu', hk', hk0]
  · exact ⟨projectRow (augmentRow zeroStrikeRow), zeroStrikeRow_mem_processed,
      rfl, by decide⟩

/-- C4 witness: the universal part applied to the sample row, 105 / 100. -/
theorem C4_witness :
    (augmentRow sampleRow).moneyness = some (FloatVal.fin (105 / 100)) :=
  C4_moneyness_unguarded_division.1 [sampleRow] (augmentRow sampleRow)
    (by simp [process_and_clean_data]) 105 100 rfl rfl (by norm_num)

/-- C5: no cell of any row returned by the Feature Processor is missing:
all eight projected columns are present on every returned row. -/
theorem C5_no_missing_fields (df : List Row) (fr : OutRow)
    (h : fr ∈ (process_and_clean_data df).2) :
    fr.underlyingPrice.isSome = true ∧ fr.strike.isSome = true ∧
    fr.optionType.isSome = true ∧ fr.moneyness.isSome = true ∧
    fr.timeToExpiration.isSome = true ∧ fr.impliedVolatility.isSome = true ∧
    fr.riskFreeRate.isSome = true ∧ fr.marketPrice.isSome = true := by
  have hm : noneMissing fr = true := (List.mem_filter.mp h).2
  simpa [noneMissing, Bool.and_eq_true, and_assoc] using hm

/-- C5 witness: the processed sample row has every projected cell present. -/
theorem C5_witness :
    (projectRow (augmentRow sampleRow)).underlyingPrice.isSome = true ∧
    (projectRow (augmentRow sampleRow)).strike.isSome = true ∧
    (projectRow (augmentRow sampleRow)).optionType.isSome = true ∧
    (projectRow (augmentRow sampleRow)).moneyness.isSome = true ∧
    (projectRow (augmentRow sampleRow)).timeToExpiration.isSome = true ∧
    (projectRow (augmentRow sampleRow)).impliedVolatility.isSome = true ∧
    (projectRow (augmentRow sampleRow)).riskFreeRate.isSome = true ∧
    (projectRow (augmentRow sampleRow)).marketPrice.isSome = true :=
  C5_no_missing_fields [sampleRow] (projectRow (augmentRow sampleRow))
    ((mem_processed_iff [sampleRow] _).mpr
      ⟨sampleRow, List.mem_singleton.mpr rfl, by decide, by decide, rfl⟩)

/-- A ticker whose price is available and which offers one expiration whose
chain contains no contract rows at all. -/
def emptyChainTicker : TickerData :=
  { price := some 100, options := [{ expDate := 30, calls := [], puts := [] }] }

/-- A call quote with positive bid and ask. -/
def callQuote : RawQuote :=
  { strike := some 5, bid := some 1, ask := some 2, impliedVolatility := some 1 }

/-- A put quote with a zero bid. -/
def putQuote : RawQuote :=
  { strike := some 5, bid := some 0, ask := some 2, impliedVolatility := some 1 }

/-- A ticker with a price and one expiration carrying one call and one put. -/
def twoQuoteTicker : TickerData :=
  { price := some 50
    options := [{ expDate := 10, calls := [callQuote], puts := [putQuote] }] }

/-- C6 counterexample: the Fetcher also returns an empty collection in a
third case — price available and expirations offered, but every offered
chain holds no contract rows — so "empty in exactly two cases" fails. -/
theorem C6_counterexample :
    (fetch_options_data 0 "AAPL" emptyChainTicker).1 = [] ∧
    emptyChainTicker.price ≠ none ∧ emptyChainTicker.options ≠ [] := by
  refine ⟨rfl, ?_, ?_⟩ <;> simp [emptyChainTicker]

/-- C6 (amended): the Fetcher returns an empty collection exactly when no
current price is obtainable or every offered expiration's chain contains no
contract rows (in particular when there are no expirations); the
missing-price case is logged and returned as an empty result rather than
an error; and with a price available it returns the union over every
offered expiration, one row per contract. -/
theorem C6_fetch_empty_characterization :
    (∀ (now : ℚ) (tk : String) (td : TickerData),
        (fetch_options_data now tk td).1 = [] ↔
          td.price = none ∨ ∀ ch ∈ td.options, ch.calls = [] ∧ ch.puts = []) ∧
    (∀ (now : ℚ) (tk : String) (td : TickerData), td.price = none →
        fetch_options_data now tk td =
          ([], ["Could not fetch current price for " ++ tk ++ ". Skipping."])) ∧
    (∀ (now : ℚ) (tk : String) (td : TickerData) (p : ℚ), td.price = some p →
        (fetch_options_data now tk td).1.length =
          (td.options.map (fun ch => ch.calls.length + ch.puts.length)).sum) := by
  refine ⟨?_, ?_, ?_⟩
  · intro now tk td
    cases hp : td.price with
    | none => simp [fetch_options_data, hp]
    | some p => simp [fetch_options_data, hp]
  · intro now tk td hp
    simp [fetch_options_data, hp]
  · intro now tk td p hp
    simp [fetch_options_data, hp, Function.comp_def]

/-- C6 witness: on a ticker with a price, one expiration, one call and one
put, the Fetcher returns exactly as many rows as the chains hold. -/
theorem C6_witness :
    (fetch_options_data 0 "MSFT" twoQuoteTicker).1.length =
      (twoQuoteTicker.options.map
        (fun ch => ch.calls.length + ch.puts.length)).sum :=
  C6_fetch_empty_characterization.2.2 0 "MSFT" twoQuoteTicker 50 rfl

/-- C9 counterexample: the Feature Processor mutates the frame it receives
in place — after the call the caller's frame differs from what was passed
in, the derived columns having been assigned onto it. -/
theorem C9_mutation_counterexample :
    (process_and_clean_data [sampleRow]).1 ≠ [sampleRow] := by
  intro h
  have h1 : augmentRow sampleRow = sampleRow := by
    simpa [process_and_clean_data] using h
  have h2 := congrArg Row.marketPrice h1
  simp [augmentRow, cellMap2, sampleRow] at h2

/-- C9 (amended): the Feature Processor's returned collection is a function
of its input alone, and every surviving row keeps its original relative
order — the output is an order-preserving selection from the per-row
transforms of the input; the input frame, however, is mutated in place: its
post-call state is the input with the derived columns assigned onto every
row. -/
theorem C9_output_function_order_preserving (df : List Row) :
    List.Sublist (process_and_clean_data df).2
        (df.map (fun r => projectRow (augmentRow r))) ∧
    (process_and_clean_data df).1 = df.map augmentRow := by
  constructor
  · unfold process_and_clean_data
    refine List.Sublist.trans (List.filter_sublist _) ?_
    refine List.Sublist.trans (List.Sublist.map projectRow (List.filter_sublist _)) ?_
    rw [List.map_map]
    exact List.Sublist.refl _
  · rfl

/-- C10: every row one Fetcher invocation returns carries the one close
price retrieved before the expiration loop as its underlying price. -/
theorem C10_constant_underlying_price (now : ℚ) (tk : String)
    (td : TickerData) (p : ℚ) (hp : td.price = some p) :
    ∀ r ∈ (fetch_options_data now tk td).1, r.underlyingPrice = some p := by
  intro r hr
  simp only [fetch_options_data, hp] at hr
  rcases List.mem_flatten.mp hr with ⟨l, hl, hrl⟩
  rcases List.mem_map.mp hl with ⟨ch, _, rfl⟩
  rcases List.mem_append.mp hrl with h | h <;>
  · rcases List.mem_map.mp h with ⟨q, _, rfl⟩
    rfl

/-- C10 witness: the stamped call row of the two-quote ticker carries the
ticker's close price 50. -/
theorem C10_witness :
    (stampRow "call" 10 "MSFT" 0 50 callQuote).underlyingPrice = some 50 :=
  C10_constant_underlying_price 0 "MSFT" twoQuoteTicker 50 rfl
    (stampRow "call" 10 "MSFT" 0 50 callQuote)
    (by simp [fetch_options_data, twoQuoteTicker])

/-- C7: when every configured ticker's fetch yields no rows, the run
reports "No data collected. Exiting." and leaves the file state exactly as
it was — the output file is neither created nor modified. -/
theorem C7_all_empty_no_write (env : String → TickerData) (now : ℚ)
    (file : Option (List CsvLine))
    (h : ∀ t ∈ TICKERS, (fetch_options_data now t (env t)).1 = []) :
    (mainRun env now file).1 = file ∧
    "No data collected. Exiting." ∈ (mainRun env now file).2 := by
  have hnil : collectedRows env now = [] := by
    apply List.filter_eq_nil_iff.mpr
    intro d hd
    rcases List.mem_map.mp hd with ⟨t, ht, rfl⟩
    simp [h t ht]
  constructor <;> simp [mainRun, hnil]

/-- C7 witness: with a quote source that has no price for any ticker, the
run leaves a nonexistent file nonexistent and reports no data. -/
theorem C7_witness :
    (mainRun (fun _ => ({ price := none, options := [] } : TickerData))
        0 none).1 = none ∧
    "No data collected. Exiting." ∈
      (mainRun (fun _ => ({ price := none, options := [] } : TickerData))
        0 none).2 :=
  C7_all_empty_no_write _ 0 none (fun _ _ => rfl)

/-- C8: when some ticker produced data, a run against an existing file
appends the data lines without a header, a run against a missing file
creates it with the header first; hence two identical runs starting from a
missing file leave the header once followed by two copies of the data
lines. -/
theorem C8_header_once_append_twice (env : String → TickerData) (now : ℚ)
    (content : List CsvLine)
    (h : (collectedRows env now).isEmpty = false) :
    (mainRun env now (some content)).1 = some (content ++ dataLines env now) ∧
    (mainRun env now none).1 = some (CsvLine.header :: dataLines env now) ∧
    (mainRun env now ((mainRun env now none).1)).1 =
      some (CsvLine.header :: (dataLines env now ++ dataLines env now)) := by
  refine ⟨?_, ?_, ?_⟩ <;> simp [mainRun, h, dataLines]

/-- Every ticker answers with the two-quote ticker data. -/
def sourceEnv : String → TickerData := fun _ => twoQuoteTicker

/-- C8 witness: two runs of the pipeline over the two-quote source,
starting from a nonexistent file, duplicate the data lines after one
header. -/
theorem C8_witness :
    (mainRun sourceEnv 0 (some [CsvLine.header])).1 =
      some ([CsvLine.header] ++ dataLines sourceEnv 0) ∧
    (mainRun sourceEnv 0 none).1 =
      some (CsvLine.header :: dataLines sourceEnv 0) ∧
    (mainRun sourceEnv 0 ((mainRun sourceEnv 0 none).1)).1 =
      some (CsvLine.header :: (dataLines sourceEnv 0 ++ dataLines sourceEnv 0)) :=
  C8_header_once_append_twice sourceEnv 0 [CsvLine.header] rfl

end DataCollector
